import Mathlib

/-!
Shallow embedding of `plat/st/stm32mp1/bl2_io_storage.c` (boot-time
image-source resolution layer of TF-A BL2 on STM32MP1).

External collaborators (the io_dev registry `io_dev_init`/`io_dev_open`/
`io_dev_close`, the sdmmc2 driver, the GPT partition parser) are modelled
as an environment of abstract result/lookup functions: the file under
`src/` only consumes their return codes.  Machine pointers (`uintptr_t`)
are modelled as `Nat`; addresses of the five static spec objects are kept
symbolic through the enumeration `SpecName`, with the linker-chosen
address assignment `spec_addr` part of the environment.
-/

/-- Machine `uintptr_t` values (handles, addresses). -/
abbrev Uintptr := Nat

/-- Return codes of the io layer (C `int`). -/
abbrev RC := Int

/-- Modelled from the spec: `MMC_BLOCK_SIZE` comes from `drivers/mmc.h`,
which is not under `src/`; one storage block. Its concrete value is never
load-bearing for any claim. -/
def MMC_BLOCK_SIZE : Nat := 512

/-- Modelled from the spec: `BL33_IMAGE_NAME` comes from a header outside
`src/` ("the policy requiring a name"); its concrete text is immaterial,
only its identity as a key into the partition table matters. -/
def BL33_IMAGE_NAME : String := "ssbl"

/-- Modelled from the spec: `BL33_BINARY_TYPE` comes from a header outside
`src/`; opaque tag, value immaterial. -/
def BL33_BINARY_TYPE : Nat := 0

/-- The five static read-spec objects whose addresses the policy table
stores (`bl2_block_spec`, `bl32_block_spec`, `bl33_partition_spec`,
`gpt_block_spec`, `stm32image_block_spec`).  The table stores pointers;
we keep pointer identity symbolic. -/
inductive SpecName where
  | bl2_block_spec
  | bl32_block_spec
  | bl33_partition_spec
  | gpt_block_spec
  | stm32image_block_spec
deriving DecidableEq, Repr

/-- The three `static uintptr_t` device-handle slots of the module. -/
inductive HandleSlot where
  | dummy_dev_handle
  | image_dev_handle
  | storage_dev_handle
deriving DecidableEq, Repr

/-- Which of the three availability-check functions a policy entry holds. -/
inductive CheckFn where
  | open_dummy
  | open_image
  | open_storage
deriving DecidableEq, Repr

/-- The C `struct stm32image_part_info` (the fields this file touches). -/
structure Stm32ImagePartInfo where
  name : String
  binary_type : Nat
  part_offset : Nat
  bkp_offset : Nat
deriving DecidableEq, Repr

/-- The C `struct stm32image_device_info` (the fields this file touches). -/
structure Stm32ImageDeviceInfo where
  lba_size : Nat
  device_size : Nat
  part_info : List Stm32ImagePartInfo
deriving DecidableEq, Repr

/-- The module's mutable static state: the three handle slots and the
container-device seed structure that setup back-fills. -/
structure Globals where
  dummy_dev_handle : Uintptr
  image_dev_handle : Uintptr
  storage_dev_handle : Uintptr
  stm32image_dev_info_spec : Stm32ImageDeviceInfo
deriving DecidableEq, Repr

/-- Value `IMG_IDX_NUM` of the `enum { IMG_IDX_BL33, IMG_IDX_NUM }`. -/
def IMG_IDX_NUM : Nat := 1

/-- Static initializer of `stm32image_dev_info_spec`: lba_size set, one
part_info entry named `BL33_IMAGE_NAME`, everything else zero. -/
def stm32image_dev_info_spec_init : Stm32ImageDeviceInfo :=
  { lba_size := MMC_BLOCK_SIZE
    device_size := 0
    part_info := [{ name := BL33_IMAGE_NAME, binary_type := BL33_BINARY_TYPE
                    part_offset := 0, bkp_offset := 0 }] }

/-- The statics before `stm32mp1_io_setup` runs (C zero-initialization,
plus the static initializer of `stm32image_dev_info_spec`). -/
def initGlobals : Globals :=
  { dummy_dev_handle := 0
    image_dev_handle := 0
    storage_dev_handle := 0
    stm32image_dev_info_spec := stm32image_dev_info_spec_init }

/-- The C `struct plat_io_policy`: a device-handle slot reference, the stored
read-spec pointer, and the availability-check function pointer. -/
structure plat_io_policy where
  dev_handle : HandleSlot
  image_spec : SpecName
  check : CheckFn
deriving DecidableEq, Repr

/-- Modelled from the spec: the image-identifier constants
(`BL2_IMAGE_ID`, `BL32_IMAGE_ID`, `BL33_IMAGE_ID`, `GPT_IMAGE_ID`,
`STM32_IMAGE_ID`) live in headers outside `src/`; the spec only requires
a small closed enumeration, so they are modelled as the dense indices
0..4 of the table below.  No claim depends on the concrete numbers. -/
def BL2_IMAGE_ID : Nat := 0
def BL32_IMAGE_ID : Nat := 1
def BL33_IMAGE_ID : Nat := 2
def GPT_IMAGE_ID : Nat := 3
def STM32_IMAGE_ID : Nat := 4

/-- The static `policies[]` table of `bl2_io_storage.c`. -/
def policies : List plat_io_policy :=
  [ { dev_handle := .dummy_dev_handle, image_spec := .bl2_block_spec
      check := .open_dummy },
    { dev_handle := .dummy_dev_handle, image_spec := .bl32_block_spec
      check := .open_dummy },
    { dev_handle := .image_dev_handle, image_spec := .bl33_partition_spec
      check := .open_image },
    { dev_handle := .storage_dev_handle, image_spec := .gpt_block_spec
      check := .open_storage },
    { dev_handle := .storage_dev_handle, image_spec := .stm32image_block_spec
      check := .open_storage } ]

/-- Environment for the resolver: the external `io_dev_init` (handle,
init_params → return code), which is a collaborator outside `src/`, and
the linker's assignment of addresses to the five static spec objects. -/
structure ResolveEnv where
  io_dev_init : Uintptr → Nat → RC
  spec_addr : SpecName → Uintptr

/-- Read the current value of a device-handle slot (`*(policy->dev_handle)`). -/
def readSlot (g : Globals) : HandleSlot → Uintptr
  | .dummy_dev_handle => g.dummy_dev_handle
  | .image_dev_handle => g.image_dev_handle
  | .storage_dev_handle => g.storage_dev_handle

/-- C function `static int open_dummy(const uintptr_t spec)`:
`return io_dev_init(dummy_dev_handle, 0);` — the spec argument is unused. -/
def open_dummy (env : ResolveEnv) (g : Globals) (_spec : Uintptr) : RC :=
  env.io_dev_init g.dummy_dev_handle 0

/-- C function `static int open_image(const uintptr_t spec)`:
`return io_dev_init(image_dev_handle, 0);` — the spec argument is unused. -/
def open_image (env : ResolveEnv) (g : Globals) (_spec : Uintptr) : RC :=
  env.io_dev_init g.image_dev_handle 0

/-- C function `static int open_storage(const uintptr_t spec)`:
`return io_dev_init(storage_dev_handle, 0);` — the spec argument is unused. -/
def open_storage (env : ResolveEnv) (g : Globals) (_spec : Uintptr) : RC :=
  env.io_dev_init g.storage_dev_handle 0

/-- Dispatch a stored check-function pointer (`policy->check(spec)`). -/
def runCheck (env : ResolveEnv) (g : Globals) : CheckFn → Uintptr → RC
  | .open_dummy, spec => open_dummy env g spec
  | .open_image, spec => open_image env g spec
  | .open_storage, spec => open_storage env g spec

/-- Values of the two out-parameters plus the return code after
`plat_get_image_source` returns. -/
structure ResolveOut where
  rc : RC
  dev_handle : Uintptr
  image_spec : Uintptr
deriving DecidableEq, Repr

/-- The C function `plat_get_image_source(unsigned int image_id, uintptr_t *dev_handle,
uintptr_t *image_spec)`.  `dev_handle0`/`image_spec0` are the values the
two out-locations hold at the call; `none` models the
`assert(image_id < ARRAY_SIZE(policies))` firing (fatal). -/
def plat_get_image_source (env : ResolveEnv) (g : Globals) (image_id : Nat)
    (dev_handle0 image_spec0 : Uintptr) : Option ResolveOut :=
  if h : image_id < policies.length then
    let policy := policies.get ⟨image_id, h⟩
    let rc := runCheck env g policy.check (env.spec_addr policy.image_spec)
    if rc = 0 then
      some { rc := rc
             dev_handle := readSlot g policy.dev_handle
             image_spec := env.spec_addr policy.image_spec }
    else
      some { rc := rc, dev_handle := dev_handle0, image_spec := image_spec0 }
  else
    none

/-! ## `stm32mp1_io_setup` and `print_boot_device` -/

/-- Modelled from the spec: the boot-interface selector constants come
from `boot_api.h`, outside `src/`; the spec only distinguishes two
recognized kinds, so the values are modelled as distinct naturals. -/
def BOOT_API_CTX_BOOT_INTERFACE_SEL_FLASH_SD : Nat := 1
def BOOT_API_CTX_BOOT_INTERFACE_SEL_FLASH_EMMC : Nat := 2

/-- Modelled from the spec: the SDMMC register bases come from a platform
header outside `src/`; three distinct fixed addresses. Only their
identity (which constant is selected) is load-bearing. -/
def STM32MP1_SDMMC1_BASE : Nat := 0x58005000
def STM32MP1_SDMMC2_BASE : Nat := 0x58007000
def STM32MP1_SDMMC3_BASE : Nat := 0x48004000

/-- The `enum mmc_device_type` values this file uses. -/
inductive MmcDevType where
  | MMC_IS_EMMC
  | MMC_IS_SD
deriving DecidableEq, Repr

/-- A GPT `partition_entry_t` as consumed here: name key and start offset. -/
structure PartitionEntry where
  name : String
  start : Nat
  length : Nat
deriving DecidableEq, Repr

/-- Observable actions of `stm32mp1_io_setup`, in program order: console
messages, registry verbs (register / open / close per connector role),
the peripheral-driver init call (with the chosen register base and media
type), partition-table discovery, and the fatal halt. -/
inductive Event where
  | info_using_sd
  | info_using_emmc
  | info_instance (n : Nat)
  | error_interface_not_found
  | fatal_halt
  | info_partition_used (n : Nat)
  | register_dev_dummy
  | io_open_dummy
  | warn_default_instance
  | sdmmc2_mmc_init (reg_base : Nat) (dev_type : MmcDevType)
  | error_sdmmc_init_failed
  | register_dev_block
  | io_open_block
  | partition_table_init
  | io_close_storage
  | error_partition_not_found (name : String)
  | register_dev_mmc
  | io_open_mmc
  | register_dev_stm32image
  | io_open_stm32image
  | error_interface_not_supported
deriving DecidableEq, Repr

/-- How a run of `stm32mp1_io_setup` ends: normal return, `panic()`, or a
failed `assert(...)` (both of the latter halt the boot). -/
inductive Outcome where
  | returned
  | panicked
  | assert_failed
deriving DecidableEq, Repr

/-- Environment of `stm32mp1_io_setup`: the boot context read from the
ROM-populated address, and the results of every external-collaborator
call (io registry, sdmmc2 driver, partition parser).  `get_partition_entry`
models the table as it stands after `partition_init(GPT_IMAGE_ID)`. -/
structure SetupEnv where
  boot_interface_selected : Nat
  boot_interface_instance : Nat
  boot_partition_used_toboot : Nat
  rc_register_dummy : RC
  rc_open_dummy : RC
  handle_open_dummy : Uintptr
  rc_sdmmc2_mmc_init : Nat → MmcDevType → RC
  rc_register_block : RC
  rc_open_block : RC
  handle_open_block : Uintptr
  rc_close_storage : RC
  mmc_device_size : Nat
  get_partition_entry : String → Option PartitionEntry
  rc_register_mmc : RC
  rc_open_mmc : RC
  handle_open_mmc : Uintptr
  rc_register_stm32image : RC
  rc_open_stm32image : RC
  handle_open_stm32image : Uintptr

/-- Result of a run of `stm32mp1_io_setup`: the emitted event trace, how
the run ended, and the module statics afterwards. -/
structure SetupResult where
  events : List Event
  outcome : Outcome
  globals : Globals
deriving DecidableEq, Repr

/-- C function `static void print_boot_device(boot_api_context_t *boot_context)`:
prints the interface in use, `panic()`s on an unrecognized selector
(returning the trace and whether it panicked), then prints the nonzero
instance number. -/
def print_boot_device (sel inst : Nat) : List Event × Bool :=
  if sel = BOOT_API_CTX_BOOT_INTERFACE_SEL_FLASH_SD then
    ([Event.info_using_sd] ++
      (if inst ≠ 0 then [Event.info_instance inst] else []), false)
  else if sel = BOOT_API_CTX_BOOT_INTERFACE_SEL_FLASH_EMMC then
    ([Event.info_using_emmc] ++
      (if inst ≠ 0 then [Event.info_instance inst] else []), false)
  else
    ([Event.error_interface_not_found, Event.fatal_halt], true)

/-- The `for (idx = 0U; idx < IMG_IDX_NUM; idx++)` loop of
`stm32mp1_io_setup`: look up each part name in the partition table;
a missing name is an ERROR plus `panic()` (`none`); otherwise back-fill
`part_offset` with the entry's start and `bkp_offset` with 0. -/
def backfill_parts (lookup : String → Option PartitionEntry) :
    List Stm32ImagePartInfo → List Event × Option (List Stm32ImagePartInfo)
  | [] => ([], some [])
  | p :: rest =>
    match lookup p.name with
    | none => ([Event.error_partition_not_found p.name, Event.fatal_halt], none)
    | some entry =>
      let p2 := { p with part_offset := entry.start, bkp_offset := 0 }
      let r := backfill_parts lookup rest
      (r.1, (r.2).map fun l => p2 :: l)

/-- The C function `stm32mp1_io_setup(void)`, as a function of the collaborator
environment and the statics before the call.  Each `assert(io_result == 0)`
becomes an `Outcome.assert_failed` exit; each `panic()` an
`Outcome.panicked` exit.  Handle slots are written exactly where the C
writes them (a successful `io_dev_open` stores the produced handle). -/
def stm32mp1_io_setup (env : SetupEnv) (g0 : Globals) : SetupResult :=
  let pbd := print_boot_device env.boot_interface_selected
      env.boot_interface_instance
  if pbd.2 then ⟨pbd.1, .panicked, g0⟩ else
  let ev0 := pbd.1 ++
    (if env.boot_partition_used_toboot = 1 ∨ env.boot_partition_used_toboot = 2
     then [Event.info_partition_used env.boot_partition_used_toboot] else [])
  let ev1 := ev0 ++ [Event.register_dev_dummy]
  if env.rc_register_dummy ≠ 0 then ⟨ev1, .assert_failed, g0⟩ else
  let ev2 := ev1 ++ [Event.io_open_dummy]
  if env.rc_open_dummy ≠ 0 then ⟨ev2, .assert_failed, g0⟩ else
  let g1 := { g0 with dummy_dev_handle := env.handle_open_dummy }
  if env.boot_interface_selected = BOOT_API_CTX_BOOT_INTERFACE_SEL_FLASH_SD ∨
     env.boot_interface_selected = BOOT_API_CTX_BOOT_INTERFACE_SEL_FLASH_EMMC
  then
    let dev_type :=
      if env.boot_interface_selected = BOOT_API_CTX_BOOT_INTERFACE_SEL_FLASH_EMMC
      then MmcDevType.MMC_IS_EMMC else MmcDevType.MMC_IS_SD
    let mmc_default_instance :=
      if env.boot_interface_selected = BOOT_API_CTX_BOOT_INTERFACE_SEL_FLASH_EMMC
      then STM32MP1_SDMMC2_BASE else STM32MP1_SDMMC1_BASE
    let reg_base :=
      if env.boot_interface_instance = 1 then STM32MP1_SDMMC1_BASE
      else if env.boot_interface_instance = 2 then STM32MP1_SDMMC2_BASE
      else if env.boot_interface_instance = 3 then STM32MP1_SDMMC3_BASE
      else mmc_default_instance
    let ev3 := ev2 ++
      (if env.boot_interface_instance = 1 ∨ env.boot_interface_instance = 2 ∨
          env.boot_interface_instance = 3
       then [] else [Event.warn_default_instance])
    let ev4 := ev3 ++ [Event.sdmmc2_mmc_init reg_base dev_type]
    if env.rc_sdmmc2_mmc_init reg_base dev_type ≠ 0 then
      ⟨ev4 ++ [Event.error_sdmmc_init_failed, Event.fatal_halt], .panicked, g1⟩
    else
    let ev5 := ev4 ++ [Event.register_dev_block]
    if env.rc_register_block ≠ 0 then ⟨ev5 ++ [Event.fatal_halt], .panicked, g1⟩ else
    let ev6 := ev5 ++ [Event.io_open_block]
    if env.rc_open_block ≠ 0 then ⟨ev6, .assert_failed, g1⟩ else
    let g2 := { g1 with storage_dev_handle := env.handle_open_block }
    let ev7 := ev6 ++ [Event.partition_table_init]
    let ev8 := ev7 ++ [Event.io_close_storage]
    if env.rc_close_storage ≠ 0 then ⟨ev8, .assert_failed, g2⟩ else
    let g3 := { g2 with stm32image_dev_info_spec :=
      { g2.stm32image_dev_info_spec with device_size := env.mmc_device_size } }
    let bf := backfill_parts env.get_partition_entry
        g3.stm32image_dev_info_spec.part_info
    match bf.2 with
    | none => ⟨ev8 ++ bf.1, .panicked, g3⟩
    | some parts =>
      let g4 := { g3 with stm32image_dev_info_spec :=
        { g3.stm32image_dev_info_spec with part_info := parts } }
      let ev9 := ev8 ++ bf.1 ++ [Event.register_dev_mmc]
      if env.rc_register_mmc ≠ 0 then ⟨ev9, .assert_failed, g4⟩ else
      let ev10 := ev9 ++ [Event.io_open_mmc]
      if env.rc_open_mmc ≠ 0 then ⟨ev10, .assert_failed, g4⟩ else
      let g5 := { g4 with storage_dev_handle := env.handle_open_mmc }
      let ev11 := ev10 ++ [Event.register_dev_stm32image]
      if env.rc_register_stm32image ≠ 0 then ⟨ev11, .assert_failed, g5⟩ else
      let ev12 := ev11 ++ [Event.io_open_stm32image]
      if env.rc_open_stm32image ≠ 0 then ⟨ev12, .assert_failed, g5⟩ else
      let g6 := { g5 with image_dev_handle := env.handle_open_stm32image }
      ⟨ev12, .returned, g6⟩
  else
    ⟨ev2 ++ [Event.error_interface_not_supported], .returned, g1⟩
lemma backfill_some_fst (lookup : String → Option PartitionEntry) :
    ∀ l : List Stm32ImagePartInfo, ∀ parts,
      (backfill_parts lookup l).2 = some parts → (backfill_parts lookup l).1 = [] := by
  intro l
  induction l with
  | nil => intro parts _; simp [backfill_parts]
  | cons p rest ih =>
    intro parts h
    cases hl : lookup p.name with
    | none => simp [backfill_parts, hl] at h
    | some e =>
      simp [backfill_parts, hl] at h ⊢
      obtain ⟨l2, hl2, -⟩ := h
      exact ih l2 hl2

lemma setup_shape_sd (env : SetupEnv) (g0 : Globals)
    (hsd : env.boot_interface_selected = BOOT_API_CTX_BOOT_INTERFACE_SEL_FLASH_SD)
    (h : (stm32mp1_io_setup env g0).outcome = Outcome.returned) :
    ∃ parts,
      (backfill_parts env.get_partition_entry
          g0.stm32image_dev_info_spec.part_info).2 = some parts ∧
      stm32mp1_io_setup env g0 =
        ⟨([Event.info_using_sd] ++
            (if env.boot_interface_instance ≠ 0
             then [Event.info_instance env.boot_interface_instance] else [])) ++
          (if env.boot_partition_used_toboot = 1 ∨ env.boot_partition_used_toboot = 2
           then [Event.info_partition_used env.boot_partition_used_toboot] else []) ++
          [Event.register_dev_dummy, Event.io_open_dummy] ++
          (if env.boot_interface_instance = 1 ∨ env.boot_interface_instance = 2 ∨
              env.boot_interface_instance = 3
           then [] else [Event.warn_default_instance]) ++
          [Event.sdmmc2_mmc_init
              (if env.boot_interface_instance = 1 then STM32MP1_SDMMC1_BASE
               else if env.boot_interface_instance = 2 then STM32MP1_SDMMC2_BASE
               else if env.boot_interface_instance = 3 then STM32MP1_SDMMC3_BASE
               else STM32MP1_SDMMC1_BASE)
              (MmcDevType.MMC_IS_SD),
            Event.register_dev_block, Event.io_open_block,
            Event.partition_table_init, Event.io_close_storage,
            Event.register_dev_mmc, Event.io_open_mmc,
            Event.register_dev_stm32image, Event.io_open_stm32image],
          Outcome.returned,
          { dummy_dev_handle := env.handle_open_dummy
            image_dev_handle := env.handle_open_stm32image
            storage_dev_handle := env.handle_open_mmc
            stm32image_dev_info_spec :=
              { lba_size := g0.stm32image_dev_info_spec.lba_size
                device_size := env.mmc_device_size
                part_info := parts } }⟩ := by
  simp only [stm32mp1_io_setup, print_boot_device, hsd,
    BOOT_API_CTX_BOOT_INTERFACE_SEL_FLASH_SD,
    BOOT_API_CTX_BOOT_INTERFACE_SEL_FLASH_EMMC] at h ⊢
  norm_num at h ⊢
  set A := (if env.boot_interface_instance = 0 then ([] : List Event)
    else [Event.info_instance env.boot_interface_instance]) with hA
  set B := (if env.boot_partition_used_toboot = 1 ∨ env.boot_partition_used_toboot = 2
    then [Event.info_partition_used env.boot_partition_used_toboot] else ([] : List Event)) with hB
  set W := (if env.boot_interface_instance = 1 ∨ env.boot_interface_instance = 2 ∨
      env.boot_interface_instance = 3
    then ([] : List Event) else [Event.warn_default_instance]) with hW
  set RB := (if env.boot_interface_instance = 1 then STM32MP1_SDMMC1_BASE
    else if env.boot_interface_instance = 2 then STM32MP1_SDMMC2_BASE
    else if env.boot_interface_instance = 3 then STM32MP1_SDMMC3_BASE
    else STM32MP1_SDMMC1_BASE) with hRB
  set BF := backfill_parts env.get_partition_entry g0.stm32image_dev_info_spec.part_info with hBF
  by_cases hc1 : env.rc_register_dummy = 0
  case neg => rw [if_neg hc1] at h; exact Outcome.noConfusion h
  rw [if_pos hc1] at h
  by_cases hc2 : env.rc_open_dummy = 0
  case neg => rw [if_neg hc2] at h; exact Outcome.noConfusion h
  rw [if_pos hc2] at h
  by_cases hc3 : env.rc_sdmmc2_mmc_init RB MmcDevType.MMC_IS_SD = 0
  case neg => rw [if_neg hc3] at h; exact Outcome.noConfusion h
  rw [if_pos hc3] at h
  by_cases hc4 : env.rc_register_block = 0
  case neg => rw [if_neg hc4] at h; exact Outcome.noConfusion h
  rw [if_pos hc4] at h
  by_cases hc5 : env.rc_open_block = 0
  case neg => rw [if_neg hc5] at h; exact Outcome.noConfusion h
  rw [if_pos hc5] at h
  by_cases hc6 : env.rc_close_storage = 0
  case neg => rw [if_neg hc6] at h; exact Outcome.noConfusion h
  rw [if_pos hc6] at h
  cases hbf : BF.2 with
  | none => rw [hbf] at h; exact Outcome.noConfusion h
  | some parts =>
  rw [hbf] at h
  simp only [] at h
  by_cases hc7 : env.rc_register_mmc = 0
  case neg => rw [if_neg hc7] at h; exact Outcome.noConfusion h
  rw [if_pos hc7] at h
  by_cases hc8 : env.rc_open_mmc = 0
  case neg => rw [if_neg hc8] at h; exact Outcome.noConfusion h
  rw [if_pos hc8] at h
  by_cases hc9 : env.rc_register_stm32image = 0
  case neg => rw [if_neg hc9] at h; exact Outcome.noConfusion h
  rw [if_pos hc9] at h
  by_cases hc10 : env.rc_open_stm32image = 0
  case neg => rw [if_neg hc10] at h; exact Outcome.noConfusion h
  rw [if_pos hc10] at h
  refine ⟨parts, rfl, ?_⟩
  have hbf1 : BF.1 = [] := backfill_some_fst env.get_partition_entry
    g0.stm32image_dev_info_spec.part_info parts hbf
  rw [if_pos hc1, if_pos hc2, if_pos hc3, if_pos hc4, if_pos hc5, if_pos hc6]
  simp only []
  rw [if_pos hc7, if_pos hc8, if_pos hc9, if_pos hc10, hbf1]
  simp [List.append_assoc]

lemma setup_shape_emmc (env : SetupEnv) (g0 : Globals)
    (hemmc : env.boot_interface_selected = BOOT_API_CTX_BOOT_INTERFACE_SEL_FLASH_EMMC)
    (h : (stm32mp1_io_setup env g0).outcome = Outcome.returned) :
    ∃ parts,
      (backfill_parts env.get_partition_entry
          g0.stm32image_dev_info_spec.part_info).2 = some parts ∧
      stm32mp1_io_setup env g0 =
        ⟨([Event.info_using_emmc] ++
            (if env.boot_interface_instance ≠ 0
             then [Event.info_instance env.boot_interface_instance] else [])) ++
          (if env.boot_partition_used_toboot = 1 ∨ env.boot_partition_used_toboot = 2
           then [Event.info_partition_used env.boot_partition_used_toboot] else []) ++
          [Event.register_dev_dummy, Event.io_open_dummy] ++
          (if env.boot_interface_instance = 1 ∨ env.boot_interface_instance = 2 ∨
              env.boot_interface_instance = 3
           then [] else [Event.warn_default_instance]) ++
          [Event.sdmmc2_mmc_init
              (if env.boot_interface_instance = 1 then STM32MP1_SDMMC1_BASE
               else if env.boot_interface_instance = 2 then STM32MP1_SDMMC2_BASE
               else if env.boot_interface_instance = 3 then STM32MP1_SDMMC3_BASE
               else STM32MP1_SDMMC2_BASE)
              (MmcDevType.MMC_IS_EMMC),
            Event.register_dev_block, Event.io_open_block,
            Event.partition_table_init, Event.io_close_storage,
            Event.register_dev_mmc, Event.io_open_mmc,
            Event.register_dev_stm32image, Event.io_open_stm32image],
          Outcome.returned,
          { dummy_dev_handle := env.handle_open_dummy
            image_dev_handle := env.handle_open_stm32image
            storage_dev_handle := env.handle_open_mmc
            stm32image_dev_info_spec :=
              { lba_size := g0.stm32image_dev_info_spec.lba_size
                device_size := env.mmc_device_size
                part_info := parts } }⟩ := by
  simp only [stm32mp1_io_setup, print_boot_device, hemmc,
    BOOT_API_CTX_BOOT_INTERFACE_SEL_FLASH_SD,
    BOOT_API_CTX_BOOT_INTERFACE_SEL_FLASH_EMMC] at h ⊢
  norm_num at h ⊢
  set A := (if env.boot_interface_instance = 0 then ([] : List Event)
    else [Event.info_instance env.boot_interface_instance]) with hA
  set B := (if env.boot_partition_used_toboot = 1 ∨ env.boot_partition_used_toboot = 2
    then [Event.info_partition_used env.boot_partition_used_toboot] else ([] : List Event)) with hB
  set W := (if env.boot_interface_instance = 1 ∨ env.boot_interface_instance = 2 ∨
      env.boot_interface_instance = 3
    then ([] : List Event) else [Event.warn_default_instance]) with hW
  set RB := (if env.boot_interface_instance = 1 then STM32MP1_SDMMC1_BASE
    else if env.boot_interface_instance = 2 then STM32MP1_SDMMC2_BASE
    else if env.boot_interface_instance = 3 then STM32MP1_SDMMC3_BASE
    else STM32MP1_SDMMC2_BASE) with hRB
  set BF := backfill_parts env.get_partition_entry g0.stm32image_dev_info_spec.part_info with hBF
  by_cases hc1 : env.rc_register_dummy = 0
  case neg => rw [if_neg hc1] at h; exact Outcome.noConfusion h
  rw [if_pos hc1] at h
  by_cases hc2 : env.rc_open_dummy = 0
  case neg => rw [if_neg hc2] at h; exact Outcome.noConfusion h
  rw [if_pos hc2] at h
  by_cases hc3 : env.rc_sdmmc2_mmc_init RB MmcDevType.MMC_IS_EMMC = 0
  case neg => rw [if_neg hc3] at h; exact Outcome.noConfusion h
  rw [if_pos hc3] at h
  by_cases hc4 : env.rc_register_block = 0
  case neg => rw [if_neg hc4] at h; exact Outcome.noConfusion h
  rw [if_pos hc4] at h
  by_cases hc5 : env.rc_open_block = 0
  case neg => rw [if_neg hc5] at h; exact Outcome.noConfusion h
  rw [if_pos hc5] at h
  by_cases hc6 : env.rc_close_storage = 0
  case neg => rw [if_neg hc6] at h; exact Outcome.noConfusion h
  rw [if_pos hc6] at h
  cases hbf : BF.2 with
  | none => rw [hbf] at h; exact Outcome.noConfusion h
  | some parts =>
  rw [hbf] at h
  simp only [] at h
  by_cases hc7 : env.rc_register_mmc = 0
  case neg => rw [if_neg hc7] at h; exact Outcome.noConfusion h
  rw [if_pos hc7] at h
  by_cases hc8 : env.rc_open_mmc = 0
  case neg => rw [if_neg hc8] at h; exact Outcome.noConfusion h
  rw [if_pos hc8] at h
  by_cases hc9 : env.rc_register_stm32image = 0
  case neg => rw [if_neg hc9] at h; exact Outcome.noConfusion h
  rw [if_pos hc9] at h
  by_cases hc10 : env.rc_open_stm32image = 0
  case neg => rw [if_neg hc10] at h; exact Outcome.noConfusion h
  rw [if_pos hc10] at h
  refine ⟨parts, rfl, ?_⟩
  have hbf1 : BF.1 = [] := backfill_some_fst env.get_partition_entry
    g0.stm32image_dev_info_spec.part_info parts hbf
  rw [if_pos hc1, if_pos hc2, if_pos hc3, if_pos hc4, if_pos hc5, if_pos hc6]
  simp only []
  rw [if_pos hc7, if_pos hc8, if_pos hc9, if_pos hc10, hbf1]
  simp [List.append_assoc]

lemma setup_unrecognized (env : SetupEnv) (g0 : Globals)
    (h1 : env.boot_interface_selected ≠ BOOT_API_CTX_BOOT_INTERFACE_SEL_FLASH_SD)
    (h2 : env.boot_interface_selected ≠ BOOT_API_CTX_BOOT_INTERFACE_SEL_FLASH_EMMC) :
    stm32mp1_io_setup env g0 =
      ⟨[Event.error_interface_not_found, Event.fatal_halt], Outcome.panicked, g0⟩ := by
  simp [stm32mp1_io_setup, print_boot_device, h1, h2]

/-! ## Claims about the resolver -/

/-- C1: for every image_id within the policy table's range whose
availability check returns 0, `plat_get_image_source` returns 0, writes
the entry's stored image_spec pointer into `*image_spec`, and writes the
current value of the entry's device-handle slot into `*dev_handle`. -/
theorem C1_resolver_success_returns_table_entry (env : ResolveEnv) (g : Globals)
    (image_id : Nat) (d0 s0 : Uintptr) (h : image_id < policies.length)
    (hc : runCheck env g (policies.get ⟨image_id, h⟩).check
        (env.spec_addr (policies.get ⟨image_id, h⟩).image_spec) = 0) :
    plat_get_image_source env g image_id d0 s0 =
      some { rc := 0
             dev_handle := readSlot g (policies.get ⟨image_id, h⟩).dev_handle
             image_spec := env.spec_addr (policies.get ⟨image_id, h⟩).image_spec } := by
  simp only [List.get_eq_getElem] at hc ⊢
  simp [plat_get_image_source, h, hc]

/-- Witness for C1 at image_id 0 with an io layer whose init succeeds. -/
theorem C1_witness :
    (0 : Nat) < policies.length ∧
    plat_get_image_source ⟨fun _ _ => 0, fun _ => 3⟩ initGlobals 0 7 8 =
      some { rc := 0, dev_handle := 0, image_spec := 3 } :=
  ⟨by decide,
   C1_resolver_success_returns_table_entry ⟨fun _ _ => 0, fun _ => 3⟩
     initGlobals 0 7 8 (by decide) (by decide)⟩

/-- C3: for every image_id within the policy table's range whose
availability check returns a non-zero code, `plat_get_image_source`
returns exactly that code and leaves both out-locations `*dev_handle`
and `*image_spec` unmodified. -/
theorem C3_resolver_error_no_mutation (env : ResolveEnv) (g : Globals)
    (image_id : Nat) (d0 s0 : Uintptr) (h : image_id < policies.length)
    (hc : runCheck env g (policies.get ⟨image_id, h⟩).check
        (env.spec_addr (policies.get ⟨image_id, h⟩).image_spec) ≠ 0) :
    plat_get_image_source env g image_id d0 s0 =
      some { rc := runCheck env g (policies.get ⟨image_id, h⟩).check
                 (env.spec_addr (policies.get ⟨image_id, h⟩).image_spec)
             dev_handle := d0
             image_spec := s0 } := by
  simp only [List.get_eq_getElem] at hc ⊢
  simp [plat_get_image_source, h, hc]

/-- Witness for C3 at image_id 4 with an io layer whose init fails with -61. -/
theorem C3_witness :
    (4 : Nat) < policies.length ∧
    plat_get_image_source ⟨fun _ _ => -61, fun _ => 3⟩ initGlobals 4 7 8 =
      some { rc := -61, dev_handle := 7, image_spec := 8 } :=
  ⟨by decide,
   C3_resolver_error_no_mutation ⟨fun _ _ => -61, fun _ => 3⟩
     initGlobals 4 7 8 (by decide) (by decide)⟩

/-- C8: a call with image_id outside the policy table's range is exactly
the fatal assertion case (`none`); under the precondition
image_id < number of policy entries the lookup is in bounds and the
call always returns a result (the assertion never fires). -/
theorem C8_out_of_range_is_fatal_assert (env : ResolveEnv) (g : Globals)
    (image_id : Nat) (d0 s0 : Uintptr) :
    plat_get_image_source env g image_id d0 s0 = none ↔
      policies.length ≤ image_id := by
  rcases Nat.lt_or_ge image_id policies.length with hlt | hge
  · simp only [plat_get_image_source, hlt, dite_true]
    constructor
    · intro hnone
      exfalso
      revert hnone
      split <;> simp
    · intro hle
      exact absurd hlt (Nat.not_lt.mpr hle)
  · simp [plat_get_image_source, Nat.not_lt.mpr hge, hge]

/-- C9: every availability check stored in the policy table ignores its
spec argument: its result is `io_dev_init` of the entry's device-handle
slot with init parameter 0, for every spec value. -/
theorem C9_checks_ignore_spec (p : plat_io_policy) (hp : p ∈ policies)
    (env : ResolveEnv) (g : Globals) (spec : Uintptr) :
    runCheck env g p.check spec = env.io_dev_init (readSlot g p.dev_handle) 0 := by
  fin_cases hp <;> rfl

/-- Witness for C9: the BL2 entry's check, on an arbitrary spec value 99,
is io_dev_init of the dummy handle slot. -/
theorem C9_witness :
    ({ dev_handle := .dummy_dev_handle, image_spec := .bl2_block_spec
       check := .open_dummy } : plat_io_policy) ∈ policies ∧
    runCheck ⟨fun _ _ => 7, fun _ => 0⟩ initGlobals CheckFn.open_dummy 99 = 7 :=
  ⟨by decide,
   C9_checks_ignore_spec
     { dev_handle := .dummy_dev_handle, image_spec := .bl2_block_spec
       check := .open_dummy }
     (by decide) ⟨fun _ _ => 7, fun _ => 0⟩ initGlobals 99⟩

lemma warn_not_mem_backfill (lookup : String → Option PartitionEntry) :
    ∀ l : List Stm32ImagePartInfo,
      Event.warn_default_instance ∉ (backfill_parts lookup l).1 := by
  intro l
  induction l with
  | nil => simp [backfill_parts]
  | cons p rest ih =>
    cases hl : lookup p.name with
    | none => simp [backfill_parts, hl]
    | some e => simpa [backfill_parts, hl] using ih

lemma init_not_mem_backfill (lookup : String → Option PartitionEntry)
    (b : Nat) (t : MmcDevType) :
    ∀ l : List Stm32ImagePartInfo,
      Event.sdmmc2_mmc_init b t ∉ (backfill_parts lookup l).1 := by
  intro l
  induction l with
  | nil => simp [backfill_parts]
  | cons p rest ih =>
    cases hl : lookup p.name with
    | none => simp [backfill_parts, hl]
    | some e => simpa [backfill_parts, hl] using ih

lemma setup_events_prefix_sd (env : SetupEnv) (g0 : Globals)
    (hsd : env.boot_interface_selected = BOOT_API_CTX_BOOT_INTERFACE_SEL_FLASH_SD)
    (h1 : env.rc_register_dummy = 0) (h2 : env.rc_open_dummy = 0) :
    ∃ rest : List Event,
      (stm32mp1_io_setup env g0).events =
        [Event.info_using_sd] ++
        (if env.boot_interface_instance = 0 then []
         else [Event.info_instance env.boot_interface_instance]) ++
        (if env.boot_partition_used_toboot = 1 ∨ env.boot_partition_used_toboot = 2
         then [Event.info_partition_used env.boot_partition_used_toboot] else []) ++
        [Event.register_dev_dummy, Event.io_open_dummy] ++
        (if env.boot_interface_instance = 1 ∨ env.boot_interface_instance = 2 ∨
            env.boot_interface_instance = 3
         then [] else [Event.warn_default_instance]) ++
        [Event.sdmmc2_mmc_init
           (if env.boot_interface_instance = 1 then STM32MP1_SDMMC1_BASE
            else if env.boot_interface_instance = 2 then STM32MP1_SDMMC2_BASE
            else if env.boot_interface_instance = 3 then STM32MP1_SDMMC3_BASE
            else STM32MP1_SDMMC1_BASE) MmcDevType.MMC_IS_SD] ++ rest ∧
      Event.warn_default_instance ∉ rest ∧
      ∀ b t, Event.sdmmc2_mmc_init b t ∉ rest := by
  have hW := warn_not_mem_backfill env.get_partition_entry
    g0.stm32image_dev_info_spec.part_info
  have hI := fun b t => init_not_mem_backfill env.get_partition_entry b t
    g0.stm32image_dev_info_spec.part_info
  simp only [stm32mp1_io_setup, print_boot_device, hsd,
    BOOT_API_CTX_BOOT_INTERFACE_SEL_FLASH_SD,
    BOOT_API_CTX_BOOT_INTERFACE_SEL_FLASH_EMMC]
  norm_num
  set A := (if env.boot_interface_instance = 0 then ([] : List Event)
    else [Event.info_instance env.boot_interface_instance]) with hA
  set B := (if env.boot_partition_used_toboot = 1 ∨ env.boot_partition_used_toboot = 2
    then [Event.info_partition_used env.boot_partition_used_toboot]
    else ([] : List Event)) with hB
  set W := (if env.boot_interface_instance = 1 ∨ env.boot_interface_instance = 2 ∨
      env.boot_interface_instance = 3
    then ([] : List Event) else [Event.warn_default_instance]) with hW2
  set RB := (if env.boot_interface_instance = 1 then STM32MP1_SDMMC1_BASE
    else if env.boot_interface_instance = 2 then STM32MP1_SDMMC2_BASE
    else if env.boot_interface_instance = 3 then STM32MP1_SDMMC3_BASE
    else STM32MP1_SDMMC1_BASE) with hRB
  set BF := backfill_parts env.get_partition_entry
    g0.stm32image_dev_info_spec.part_info with hBF
  rw [if_pos h1, if_pos h2]
  by_cases hc3 : env.rc_sdmmc2_mmc_init RB MmcDevType.MMC_IS_SD = 0
  case neg =>
    rw [if_neg hc3]
    exact ⟨[Event.error_sdmmc_init_failed, Event.fatal_halt],
      by simp [List.append_assoc], by simp, by intro b t; simp⟩
  rw [if_pos hc3]
  by_cases hc4 : env.rc_register_block = 0
  case neg =>
    rw [if_neg hc4]
    exact ⟨[Event.register_dev_block, Event.fatal_halt],
      by simp [List.append_assoc], by simp, by intro b t; simp⟩
  rw [if_pos hc4]
  by_cases hc5 : env.rc_open_block = 0
  case neg =>
    rw [if_neg hc5]
    exact ⟨[Event.register_dev_block, Event.io_open_block],
      by simp [List.append_assoc], by simp, by intro b t; simp⟩
  rw [if_pos hc5]
  by_cases hc6 : env.rc_close_storage = 0
  case neg =>
    rw [if_neg hc6]
    exact ⟨[Event.register_dev_block, Event.io_open_block,
        Event.partition_table_init, Event.io_close_storage],
      by simp [List.append_assoc], by simp, by intro b t; simp⟩
  rw [if_pos hc6]
  cases hbf : BF.2 with
  | none =>
    simp only []
    refine ⟨[Event.register_dev_block, Event.io_open_block,
        Event.partition_table_init, Event.io_close_storage] ++ BF.1,
      by simp [List.append_assoc], ?_, ?_⟩
    · simp [hW]
    · intro b t
      simp [hI b t]
  | some parts =>
    simp only []
    have hbf1 : BF.1 = [] := backfill_some_fst env.get_partition_entry
      g0.stm32image_dev_info_spec.part_info parts hbf
    rw [hbf1]
    by_cases hc7 : env.rc_register_mmc = 0
    case neg =>
      rw [if_neg hc7]
      exact ⟨[Event.register_dev_block, Event.io_open_block,
          Event.partition_table_init, Event.io_close_storage,
          Event.register_dev_mmc],
        by simp [List.append_assoc], by simp, by intro b t; simp⟩
    rw [if_pos hc7]
    by_cases hc8 : env.rc_open_mmc = 0
    case neg =>
      rw [if_neg hc8]
      exact ⟨[Event.register_dev_block, Event.io_open_block,
          Event.partition_table_init, Event.io_close_storage,
          Event.register_dev_mmc, Event.io_open_mmc],
        by simp [List.append_assoc], by simp, by intro b t; simp⟩
    rw [if_pos hc8]
    by_cases hc9 : env.rc_register_stm32image = 0
    case neg =>
      rw [if_neg hc9]
      exact ⟨[Event.register_dev_block, Event.io_open_block,
          Event.partition_table_init, Event.io_close_storage,
          Event.register_dev_mmc, Event.io_open_mmc,
          Event.register_dev_stm32image],
        by simp [List.append_assoc], by simp, by intro b t; simp⟩
    rw [if_pos hc9]
    refine ⟨[Event.register_dev_block, Event.io_open_block,
        Event.partition_table_init, Event.io_close_storage,
        Event.register_dev_mmc, Event.io_open_mmc,
        Event.register_dev_stm32image, Event.io_open_stm32image],
      ?_, by simp, by intro b t; simp⟩
    by_cases hc10 : env.rc_open_stm32image = 0
    · rw [if_pos hc10]
      simp [List.append_assoc]
    · rw [if_neg hc10]
      simp [List.append_assoc]

lemma setup_events_prefix_emmc (env : SetupEnv) (g0 : Globals)
    (hemmc : env.boot_interface_selected = BOOT_API_CTX_BOOT_INTERFACE_SEL_FLASH_EMMC)
    (h1 : env.rc_register_dummy = 0) (h2 : env.rc_open_dummy = 0) :
    ∃ rest : List Event,
      (stm32mp1_io_setup env g0).events =
        [Event.info_using_emmc] ++
        (if env.boot_interface_instance = 0 then []
         else [Event.info_instance env.boot_interface_instance]) ++
        (if env.boot_partition_used_toboot = 1 ∨ env.boot_partition_used_toboot = 2
         then [Event.info_partition_used env.boot_partition_used_toboot] else []) ++
        [Event.register_dev_dummy, Event.io_open_dummy] ++
        (if env.boot_interface_instance = 1 ∨ env.boot_interface_instance = 2 ∨
            env.boot_interface_instance = 3
         then [] else [Event.warn_default_instance]) ++
        [Event.sdmmc2_mmc_init
           (if env.boot_interface_instance = 1 then STM32MP1_SDMMC1_BASE
            else if env.boot_interface_instance = 2 then STM32MP1_SDMMC2_BASE
            else if env.boot_interface_instance = 3 then STM32MP1_SDMMC3_BASE
            else STM32MP1_SDMMC2_BASE) MmcDevType.MMC_IS_EMMC] ++ rest ∧
      Event.warn_default_instance ∉ rest ∧
      ∀ b t, Event.sdmmc2_mmc_init b t ∉ rest := by
  have hW := warn_not_mem_backfill env.get_partition_entry
    g0.stm32image_dev_info_spec.part_info
  have hI := fun b t => init_not_mem_backfill env.get_partition_entry b t
    g0.stm32image_dev_info_spec.part_info
  simp only [stm32mp1_io_setup, print_boot_device, hemmc,
    BOOT_API_CTX_BOOT_INTERFACE_SEL_FLASH_SD,
    BOOT_API_CTX_BOOT_INTERFACE_SEL_FLASH_EMMC]
  norm_num
  set A := (if env.boot_interface_instance = 0 then ([] : List Event)
    else [Event.info_instance env.boot_interface_instance]) with hA
  set B := (if env.boot_partition_used_toboot = 1 ∨ env.boot_partition_used_toboot = 2
    then [Event.info_partition_used env.boot_partition_used_toboot]
    else ([] : List Event)) with hB
  set W := (if env.boot_interface_instance = 1 ∨ env.boot_interface_instance = 2 ∨
      env.boot_interface_instance = 3
    then ([] : List Event) else [Event.warn_default_instance]) with hW2
  set RB := (if env.boot_interface_instance = 1 then STM32MP1_SDMMC1_BASE
    else if env.boot_interface_instance = 2 then STM32MP1_SDMMC2_BASE
    else if env.boot_interface_instance = 3 then STM32MP1_SDMMC3_BASE
    else STM32MP1_SDMMC2_BASE) with hRB
  set BF := backfill_parts env.get_partition_entry
    g0.stm32image_dev_info_spec.part_info with hBF
  rw [if_pos h1, if_pos h2]
  by_cases hc3 : env.rc_sdmmc2_mmc_init RB MmcDevType.MMC_IS_EMMC = 0
  case neg =>
    rw [if_neg hc3]
    exact ⟨[Event.error_sdmmc_init_failed, Event.fatal_halt],
      by simp [List.append_assoc], by simp, by intro b t; simp⟩
  rw [if_pos hc3]
  by_cases hc4 : env.rc_register_block = 0
  case neg =>
    rw [if_neg hc4]
    exact ⟨[Event.register_dev_block, Event.fatal_halt],
      by simp [List.append_assoc], by simp, by intro b t; simp⟩
  rw [if_pos hc4]
  by_cases hc5 : env.rc_open_block = 0
  case neg =>
    rw [if_neg hc5]
    exact ⟨[Event.register_dev_block, Event.io_open_block],
      by simp [List.append_assoc], by simp, by intro b t; simp⟩
  rw [if_pos hc5]
  by_cases hc6 : env.rc_close_storage = 0
  case neg =>
    rw [if_neg hc6]
    exact ⟨[Event.register_dev_block, Event.io_open_block,
        Event.partition_table_init, Event.io_close_storage],
      by simp [List.append_assoc], by simp, by intro b t; simp⟩
  rw [if_pos hc6]
  cases hbf : BF.2 with
  | none =>
    simp only []
    refine ⟨[Event.register_dev_block, Event.io_open_block,
        Event.partition_table_init, Event.io_close_storage] ++ BF.1,
      by simp [List.append_assoc], ?_, ?_⟩
    · simp [hW]
    · intro b t
      simp [hI b t]
  | some parts =>
    simp only []
    have hbf1 : BF.1 = [] := backfill_some_fst env.get_partition_entry
      g0.stm32image_dev_info_spec.part_info parts hbf
    rw [hbf1]
    by_cases hc7 : env.rc_register_mmc = 0
    case neg =>
      rw [if_neg hc7]
      exact ⟨[Event.register_dev_block, Event.io_open_block,
          Event.partition_table_init, Event.io_close_storage,
          Event.register_dev_mmc],
        by simp [List.append_assoc], by simp, by intro b t; simp⟩
    rw [if_pos hc7]
    by_cases hc8 : env.rc_open_mmc = 0
    case neg =>
      rw [if_neg hc8]
      exact ⟨[Event.register_dev_block, Event.io_open_block,
          Event.partition_table_init, Event.io_close_storage,
          Event.register_dev_mmc, Event.io_open_mmc],
        by simp [List.append_assoc], by simp, by intro b t; simp⟩
    rw [if_pos hc8]
    by_cases hc9 : env.rc_register_stm32image = 0
    case neg =>
      rw [if_neg hc9]
      exact ⟨[Event.register_dev_block, Event.io_open_block,
          Event.partition_table_init, Event.io_close_storage,
          Event.register_dev_mmc, Event.io_open_mmc,
          Event.register_dev_stm32image],
        by simp [List.append_assoc], by simp, by intro b t; simp⟩
    rw [if_pos hc9]
    refine ⟨[Event.register_dev_block, Event.io_open_block,
        Event.partition_table_init, Event.io_close_storage,
        Event.register_dev_mmc, Event.io_open_mmc,
        Event.register_dev_stm32image, Event.io_open_stm32image],
      ?_, by simp, by intro b t; simp⟩
    by_cases hc10 : env.rc_open_stm32image = 0
    · rw [if_pos hc10]
      simp [List.append_assoc]
    · rw [if_neg hc10]
      simp [List.append_assoc]

/-! ## Claims about `stm32mp1_io_setup` -/

/-- C10: with an unrecognized boot interface, setup panics inside
`print_boot_device` before registering or opening any IO device: the run
emits only the "Boot interface not found" error and the halt, and leaves
every module static (including the dummy device handle) untouched, so no
image identifier becomes resolvable. -/
theorem C10_unrecognized_interface_panics_first (env : SetupEnv) (g0 : Globals)
    (h1 : env.boot_interface_selected ≠ BOOT_API_CTX_BOOT_INTERFACE_SEL_FLASH_SD)
    (h2 : env.boot_interface_selected ≠ BOOT_API_CTX_BOOT_INTERFACE_SEL_FLASH_EMMC) :
    stm32mp1_io_setup env g0 =
      ⟨[Event.error_interface_not_found, Event.fatal_halt], Outcome.panicked, g0⟩ ∧
    Event.register_dev_dummy ∉ (stm32mp1_io_setup env g0).events ∧
    Event.io_open_dummy ∉ (stm32mp1_io_setup env g0).events ∧
    (stm32mp1_io_setup env g0).globals = g0 := by
  have h := setup_unrecognized env g0 h1 h2
  refine ⟨h, ?_, ?_, ?_⟩ <;> rw [h] <;> simp

/-- Successful SD boot environment used as a concrete witness input. -/
def envOK : SetupEnv :=
  { boot_interface_selected := BOOT_API_CTX_BOOT_INTERFACE_SEL_FLASH_SD
    boot_interface_instance := 2
    boot_partition_used_toboot := 1
    rc_register_dummy := 0
    rc_open_dummy := 0
    handle_open_dummy := 11
    rc_sdmmc2_mmc_init := fun _ _ => 0
    rc_register_block := 0
    rc_open_block := 0
    handle_open_block := 22
    rc_close_storage := 0
    mmc_device_size := 4000000
    get_partition_entry := fun n =>
      if n = BL33_IMAGE_NAME then some { name := BL33_IMAGE_NAME, start := 100, length := 50 }
      else none
    rc_register_mmc := 0
    rc_open_mmc := 0
    handle_open_mmc := 33
    rc_register_stm32image := 0
    rc_open_stm32image := 0
    handle_open_stm32image := 44 }

/-- Witness for C10 at a concrete unrecognized interface value 7. -/
theorem C10_witness :
    ({ envOK with boot_interface_selected := 7 } : SetupEnv).boot_interface_selected ≠
        BOOT_API_CTX_BOOT_INTERFACE_SEL_FLASH_SD ∧
    (stm32mp1_io_setup { envOK with boot_interface_selected := 7 } initGlobals =
        ⟨[Event.error_interface_not_found, Event.fatal_halt], Outcome.panicked, initGlobals⟩ ∧
      Event.register_dev_dummy ∉
        (stm32mp1_io_setup { envOK with boot_interface_selected := 7 } initGlobals).events ∧
      Event.io_open_dummy ∉
        (stm32mp1_io_setup { envOK with boot_interface_selected := 7 } initGlobals).events ∧
      (stm32mp1_io_setup { envOK with boot_interface_selected := 7 } initGlobals).globals =
        initGlobals) :=
  ⟨by decide,
   C10_unrecognized_interface_panics_first { envOK with boot_interface_selected := 7 }
     initGlobals (by decide) (by decide)⟩

/-- C2 counterexample: with boot interface 0 (neither SD nor EMMC), the
code does not behave as the claim states: setup does not return (it
panics), never emits the "Boot interface not supported" report of the
dead default branch, and never registers the fixed-offset (dummy)
device, so dummy-bound image identifiers are not resolvable afterward. -/
theorem C2_counterexample :
    ¬ ((stm32mp1_io_setup { envOK with boot_interface_selected := 0 } initGlobals).outcome ≠
          Outcome.panicked ∧
       Event.error_interface_not_supported ∈
         (stm32mp1_io_setup { envOK with boot_interface_selected := 0 } initGlobals).events ∧
       Event.register_dev_dummy ∈
         (stm32mp1_io_setup { envOK with boot_interface_selected := 0 } initGlobals).events) := by
  decide

/-- C2 (amended): when the boot interface is neither SD nor EMMC, setup
reports "Boot interface not found" and panics inside `print_boot_device`
before any device registration; the dead "interface not supported"
report is never emitted and the fixed-offset (dummy) device is never
registered or opened, so no image identifier (not even a
fixed-offset-backed one) becomes resolvable. -/
theorem C2_amended_unrecognized_interface_is_fatal (env : SetupEnv) (g0 : Globals)
    (h1 : env.boot_interface_selected ≠ BOOT_API_CTX_BOOT_INTERFACE_SEL_FLASH_SD)
    (h2 : env.boot_interface_selected ≠ BOOT_API_CTX_BOOT_INTERFACE_SEL_FLASH_EMMC) :
    (stm32mp1_io_setup env g0).outcome = Outcome.panicked ∧
    Event.error_interface_not_found ∈ (stm32mp1_io_setup env g0).events ∧
    Event.error_interface_not_supported ∉ (stm32mp1_io_setup env g0).events ∧
    Event.register_dev_dummy ∉ (stm32mp1_io_setup env g0).events ∧
    Event.io_open_dummy ∉ (stm32mp1_io_setup env g0).events := by
  rw [setup_unrecognized env g0 h1 h2]
  simp

/-- Witness for the amended C2 at the concrete interface value 9. -/
theorem C2_witness :
    ({ envOK with boot_interface_selected := 9 } : SetupEnv).boot_interface_selected ≠
        BOOT_API_CTX_BOOT_INTERFACE_SEL_FLASH_SD ∧
    ((stm32mp1_io_setup { envOK with boot_interface_selected := 9 } initGlobals).outcome =
        Outcome.panicked ∧
      Event.error_interface_not_found ∈
        (stm32mp1_io_setup { envOK with boot_interface_selected := 9 } initGlobals).events ∧
      Event.error_interface_not_supported ∉
        (stm32mp1_io_setup { envOK with boot_interface_selected := 9 } initGlobals).events ∧
      Event.register_dev_dummy ∉
        (stm32mp1_io_setup { envOK with boot_interface_selected := 9 } initGlobals).events ∧
      Event.io_open_dummy ∉
        (stm32mp1_io_setup { envOK with boot_interface_selected := 9 } initGlobals).events) :=
  ⟨by decide,
   C2_amended_unrecognized_interface_is_fatal { envOK with boot_interface_selected := 9 }
     initGlobals (by decide) (by decide)⟩

/-- C4: in every run of setup that returns normally, the block-access
session is closed (`io_dev_close` on the storage handle) strictly before
the streaming-access (`io_mmc`) session is opened: the trace contains
exactly one close and one streaming open, with the close earlier. -/
theorem C4_block_close_precedes_streaming_open (env : SetupEnv) (g0 : Globals)
    (h : (stm32mp1_io_setup env g0).outcome = Outcome.returned) :
    ∃ l1 l2 l3,
      (stm32mp1_io_setup env g0).events =
        l1 ++ Event.io_close_storage :: (l2 ++ Event.io_open_mmc :: l3) ∧
      Event.io_close_storage ∉ l1 ∧ Event.io_open_mmc ∉ l1 ∧
      Event.io_close_storage ∉ l2 ∧ Event.io_open_mmc ∉ l2 ∧
      Event.io_close_storage ∉ l3 ∧ Event.io_open_mmc ∉ l3 := by
  by_cases hsd : env.boot_interface_selected = BOOT_API_CTX_BOOT_INTERFACE_SEL_FLASH_SD
  · obtain ⟨parts, hbf, hEq⟩ := setup_shape_sd env g0 hsd h
    rw [hEq]
    refine ⟨([Event.info_using_sd] ++
        (if env.boot_interface_instance ≠ 0
         then [Event.info_instance env.boot_interface_instance] else [])) ++
        (if env.boot_partition_used_toboot = 1 ∨ env.boot_partition_used_toboot = 2
         then [Event.info_partition_used env.boot_partition_used_toboot] else []) ++
        [Event.register_dev_dummy, Event.io_open_dummy] ++
        (if env.boot_interface_instance = 1 ∨ env.boot_interface_instance = 2 ∨
            env.boot_interface_instance = 3
         then [] else [Event.warn_default_instance]) ++
        [Event.sdmmc2_mmc_init
            (if env.boot_interface_instance = 1 then STM32MP1_SDMMC1_BASE
             else if env.boot_interface_instance = 2 then STM32MP1_SDMMC2_BASE
             else if env.boot_interface_instance = 3 then STM32MP1_SDMMC3_BASE
             else STM32MP1_SDMMC1_BASE) MmcDevType.MMC_IS_SD,
          Event.register_dev_block, Event.io_open_block, Event.partition_table_init],
        [Event.register_dev_mmc],
        [Event.register_dev_stm32image, Event.io_open_stm32image],
        ?_, ?_, ?_, ?_, ?_, ?_, ?_⟩
    · simp [List.append_assoc]
    · split_ifs <;> simp
    · split_ifs <;> simp
    · simp
    · simp
    · simp
    · simp
  by_cases hemmc : env.boot_interface_selected = BOOT_API_CTX_BOOT_INTERFACE_SEL_FLASH_EMMC
  · obtain ⟨parts, hbf, hEq⟩ := setup_shape_emmc env g0 hemmc h
    rw [hEq]
    refine ⟨([Event.info_using_emmc] ++
        (if env.boot_interface_instance ≠ 0
         then [Event.info_instance env.boot_interface_instance] else [])) ++
        (if env.boot_partition_used_toboot = 1 ∨ env.boot_partition_used_toboot = 2
         then [Event.info_partition_used env.boot_partition_used_toboot] else []) ++
        [Event.register_dev_dummy, Event.io_open_dummy] ++
        (if env.boot_interface_instance = 1 ∨ env.boot_interface_instance = 2 ∨
            env.boot_interface_instance = 3
         then [] else [Event.warn_default_instance]) ++
        [Event.sdmmc2_mmc_init
            (if env.boot_interface_instance = 1 then STM32MP1_SDMMC1_BASE
             else if env.boot_interface_instance = 2 then STM32MP1_SDMMC2_BASE
             else if env.boot_interface_instance = 3 then STM32MP1_SDMMC3_BASE
             else STM32MP1_SDMMC2_BASE) MmcDevType.MMC_IS_EMMC,
          Event.register_dev_block, Event.io_open_block, Event.partition_table_init],
        [Event.register_dev_mmc],
        [Event.register_dev_stm32image, Event.io_open_stm32image],
        ?_, ?_, ?_, ?_, ?_, ?_, ?_⟩
    · simp [List.append_assoc]
    · split_ifs <;> simp
    · split_ifs <;> simp
    · simp
    · simp
    · simp
    · simp
  · rw [setup_unrecognized env g0 hsd hemmc] at h
    simp at h

/-- Witness for C4: the concrete successful SD run. -/
theorem C4_witness :
    (stm32mp1_io_setup envOK initGlobals).outcome = Outcome.returned ∧
    (∃ l1 l2 l3,
      (stm32mp1_io_setup envOK initGlobals).events =
        l1 ++ Event.io_close_storage :: (l2 ++ Event.io_open_mmc :: l3) ∧
      Event.io_close_storage ∉ l1 ∧ Event.io_open_mmc ∉ l1 ∧
      Event.io_close_storage ∉ l2 ∧ Event.io_open_mmc ∉ l2 ∧
      Event.io_close_storage ∉ l3 ∧ Event.io_open_mmc ∉ l3) :=
  ⟨by decide, C4_block_close_precedes_streaming_open envOK initGlobals (by decide)⟩

/-- C5: if the discovered partition table lacks the entry named by the
policy's stm32image part list, setup panics, reporting the missing
partition name, and never registers or opens the container-format
(stm32image) device. -/
theorem C5_missing_partition_is_fatal (env : SetupEnv)
    (hrec : env.boot_interface_selected = BOOT_API_CTX_BOOT_INTERFACE_SEL_FLASH_SD ∨
            env.boot_interface_selected = BOOT_API_CTX_BOOT_INTERFACE_SEL_FLASH_EMMC)
    (h1 : env.rc_register_dummy = 0) (h2 : env.rc_open_dummy = 0)
    (h3 : ∀ b t, env.rc_sdmmc2_mmc_init b t = 0)
    (h4 : env.rc_register_block = 0) (h5 : env.rc_open_block = 0)
    (h6 : env.rc_close_storage = 0)
    (hlook : env.get_partition_entry BL33_IMAGE_NAME = none) :
    (stm32mp1_io_setup env initGlobals).outcome = Outcome.panicked ∧
    Event.error_partition_not_found BL33_IMAGE_NAME ∈
      (stm32mp1_io_setup env initGlobals).events ∧
    Event.register_dev_stm32image ∉ (stm32mp1_io_setup env initGlobals).events ∧
    Event.io_open_stm32image ∉ (stm32mp1_io_setup env initGlobals).events := by
  rcases hrec with hsel | hsel <;>
    simp only [stm32mp1_io_setup, print_boot_device, hsel,
      BOOT_API_CTX_BOOT_INTERFACE_SEL_FLASH_SD,
      BOOT_API_CTX_BOOT_INTERFACE_SEL_FLASH_EMMC,
      initGlobals, stm32image_dev_info_spec_init] <;>
    norm_num [h1, h2, h3, h4, h5, h6, backfill_parts, hlook] <;>
    split_ifs <;> simp

/-- C7: for the policy's named image whose partition-table entry is
found, setup back-fills that image's specification with the entry's
start offset as part_offset and 0 as bkp_offset. -/
theorem C7_backfilled_offsets (env : SetupEnv) (e : PartitionEntry)
    (hrec : env.boot_interface_selected = BOOT_API_CTX_BOOT_INTERFACE_SEL_FLASH_SD ∨
            env.boot_interface_selected = BOOT_API_CTX_BOOT_INTERFACE_SEL_FLASH_EMMC)
    (h1 : env.rc_register_dummy = 0) (h2 : env.rc_open_dummy = 0)
    (h3 : ∀ b t, env.rc_sdmmc2_mmc_init b t = 0)
    (h4 : env.rc_register_block = 0) (h5 : env.rc_open_block = 0)
    (h6 : env.rc_close_storage = 0)
    (hlook : env.get_partition_entry BL33_IMAGE_NAME = some e) :
    (stm32mp1_io_setup env initGlobals).globals.stm32image_dev_info_spec.part_info =
      [{ name := BL33_IMAGE_NAME, binary_type := BL33_BINARY_TYPE
         part_offset := e.start, bkp_offset := 0 }] := by
  rcases hrec with hsel | hsel <;>
    simp only [stm32mp1_io_setup, print_boot_device, hsel,
      BOOT_API_CTX_BOOT_INTERFACE_SEL_FLASH_SD,
      BOOT_API_CTX_BOOT_INTERFACE_SEL_FLASH_EMMC,
      initGlobals, stm32image_dev_info_spec_init] <;>
    norm_num [h1, h2, h3, h4, h5, h6, backfill_parts, hlook]
  all_goals (
    by_cases hc7 : env.rc_register_mmc = 0 <;>
    by_cases hc8 : env.rc_open_mmc = 0 <;>
    by_cases hc9 : env.rc_register_stm32image = 0 <;>
    by_cases hc10 : env.rc_open_stm32image = 0 <;>
    simp [hc7, hc8, hc9, hc10])

/-- C6: the peripheral register base handed to the sdmmc2 driver is the
documented one for each recognized instance number (1 → SDMMC1 base,
2 → SDMMC2 base, 3 → SDMMC3 base); instance 0 or any other value falls
back to the kind-dependent default (EMMC → SDMMC2 base, SD → SDMMC1
base) and emits a non-fatal warning, which appears exactly in the
fallback case. -/
theorem C6_register_base_selection (env : SetupEnv) (g0 : Globals)
    (hrec : env.boot_interface_selected = BOOT_API_CTX_BOOT_INTERFACE_SEL_FLASH_SD ∨
            env.boot_interface_selected = BOOT_API_CTX_BOOT_INTERFACE_SEL_FLASH_EMMC)
    (h1 : env.rc_register_dummy = 0) (h2 : env.rc_open_dummy = 0) :
    (∃ t, Event.sdmmc2_mmc_init
        (if env.boot_interface_instance = 1 then STM32MP1_SDMMC1_BASE
         else if env.boot_interface_instance = 2 then STM32MP1_SDMMC2_BASE
         else if env.boot_interface_instance = 3 then STM32MP1_SDMMC3_BASE
         else if env.boot_interface_selected =
             BOOT_API_CTX_BOOT_INTERFACE_SEL_FLASH_EMMC
           then STM32MP1_SDMMC2_BASE else STM32MP1_SDMMC1_BASE) t
       ∈ (stm32mp1_io_setup env g0).events) ∧
    (∀ b t, Event.sdmmc2_mmc_init b t ∈ (stm32mp1_io_setup env g0).events →
       b = (if env.boot_interface_instance = 1 then STM32MP1_SDMMC1_BASE
            else if env.boot_interface_instance = 2 then STM32MP1_SDMMC2_BASE
            else if env.boot_interface_instance = 3 then STM32MP1_SDMMC3_BASE
            else if env.boot_interface_selected =
                BOOT_API_CTX_BOOT_INTERFACE_SEL_FLASH_EMMC
              then STM32MP1_SDMMC2_BASE else STM32MP1_SDMMC1_BASE)) ∧
    (Event.warn_default_instance ∈ (stm32mp1_io_setup env g0).events ↔
       ¬(env.boot_interface_instance = 1 ∨ env.boot_interface_instance = 2 ∨
         env.boot_interface_instance = 3)) := by
  rcases hrec with hsel | hsel
  · obtain ⟨rest, hev, hw, hinit⟩ := setup_events_prefix_sd env g0 hsel h1 h2
    rw [hev]
    simp only [hsel, BOOT_API_CTX_BOOT_INTERFACE_SEL_FLASH_SD,
      BOOT_API_CTX_BOOT_INTERFACE_SEL_FLASH_EMMC]
    norm_num
    refine ⟨⟨MmcDevType.MMC_IS_SD, by simp⟩, ?_, ?_⟩
    · intro b t hmem
      split_ifs at hmem ⊢ <;> simp_all
    · split_ifs <;> simp_all
  · obtain ⟨rest, hev, hw, hinit⟩ := setup_events_prefix_emmc env g0 hsel h1 h2
    rw [hev]
    simp only [hsel, BOOT_API_CTX_BOOT_INTERFACE_SEL_FLASH_SD,
      BOOT_API_CTX_BOOT_INTERFACE_SEL_FLASH_EMMC]
    norm_num
    refine ⟨⟨MmcDevType.MMC_IS_EMMC, by simp⟩, ?_, ?_⟩
    · intro b t hmem
      split_ifs at hmem ⊢ <;> simp_all
    · split_ifs <;> simp_all

/-- Environment whose partition table lacks every name, for the C5 witness. -/
def envNoPart : SetupEnv := { envOK with get_partition_entry := fun _ => none }

/-- Witness for C5: concrete SD run whose partition lookup fails. -/
theorem C5_witness :
    envNoPart.get_partition_entry BL33_IMAGE_NAME = none ∧
    ((stm32mp1_io_setup envNoPart initGlobals).outcome = Outcome.panicked ∧
     Event.error_partition_not_found BL33_IMAGE_NAME ∈
       (stm32mp1_io_setup envNoPart initGlobals).events ∧
     Event.register_dev_stm32image ∉ (stm32mp1_io_setup envNoPart initGlobals).events ∧
     Event.io_open_stm32image ∉ (stm32mp1_io_setup envNoPart initGlobals).events) :=
  ⟨rfl, C5_missing_partition_is_fatal envNoPart (Or.inl rfl) rfl rfl
    (fun _ _ => rfl) rfl rfl rfl rfl⟩

/-- Witness for C7: concrete SD run whose table holds the BL33 name at
offset 100; the back-filled spec records offset 100 and backup offset 0. -/
theorem C7_witness :
    envOK.get_partition_entry BL33_IMAGE_NAME =
      some { name := BL33_IMAGE_NAME, start := 100, length := 50 } ∧
    (stm32mp1_io_setup envOK initGlobals).globals.stm32image_dev_info_spec.part_info =
      [{ name := BL33_IMAGE_NAME, binary_type := BL33_BINARY_TYPE
         part_offset := 100, bkp_offset := 0 }] :=
  ⟨by decide,
   C7_backfilled_offsets envOK { name := BL33_IMAGE_NAME, start := 100, length := 50 }
     (Or.inl rfl) rfl rfl (fun _ _ => rfl) rfl rfl rfl (by decide)⟩

/-- Witness for C6: the concrete SD run with instance 2 selects the
SDMMC2 base and emits no fallback warning. -/
theorem C6_witness :
    (envOK.boot_interface_selected = BOOT_API_CTX_BOOT_INTERFACE_SEL_FLASH_SD ∨
     envOK.boot_interface_selected = BOOT_API_CTX_BOOT_INTERFACE_SEL_FLASH_EMMC) ∧
    ((∃ t, Event.sdmmc2_mmc_init
        (if envOK.boot_interface_instance = 1 then STM32MP1_SDMMC1_BASE
         else if envOK.boot_interface_instance = 2 then STM32MP1_SDMMC2_BASE
         else if envOK.boot_interface_instance = 3 then STM32MP1_SDMMC3_BASE
         else if envOK.boot_interface_selected =
             BOOT_API_CTX_BOOT_INTERFACE_SEL_FLASH_EMMC
           then STM32MP1_SDMMC2_BASE else STM32MP1_SDMMC1_BASE) t
       ∈ (stm32mp1_io_setup envOK initGlobals).events) ∧
    (∀ b t, Event.sdmmc2_mmc_init b t ∈ (stm32mp1_io_setup envOK initGlobals).events →
       b = (if envOK.boot_interface_instance = 1 then STM32MP1_SDMMC1_BASE
            else if envOK.boot_interface_instance = 2 then STM32MP1_SDMMC2_BASE
            else if envOK.boot_interface_instance = 3 then STM32MP1_SDMMC3_BASE
            else if envOK.boot_interface_selected =
                BOOT_API_CTX_BOOT_INTERFACE_SEL_FLASH_EMMC
              then STM32MP1_SDMMC2_BASE else STM32MP1_SDMMC1_BASE)) ∧
    (Event.warn_default_instance ∈ (stm32mp1_io_setup envOK initGlobals).events ↔
       ¬(envOK.boot_interface_instance = 1 ∨ envOK.boot_interface_instance = 2 ∨
         envOK.boot_interface_instance = 3))) :=
  ⟨Or.inl (by decide),
   C6_register_base_selection envOK initGlobals (Or.inl (by decide))
     (by decide) (by decide)⟩
